import Mathlib

/-!
Verification development for the Flask to-do application (src/app.py).

The embedding models instants as integer minutes.  A value stored in the
`tasks.due_date` column (a timezone-less SQL TIMESTAMP) or parsed from a
`datetime-local` form field is *naive*: a wall-clock reading with no zone
attached.  A value carrying a zone is *aware* and is represented by the
UTC epoch minute it denotes.  `pytz.utc.localize w` turns the naive wall
reading `w` into the aware instant `w`; converting an aware value with
`astimezone` never changes the instant it denotes, only its display zone.
-/

/-- Offset of the application's fixed zone `Asia/Kolkata` (UTC+5:30), minutes. -/
def istOffsetMinutes : Int := 330

/-- A timestamp as the Python code sees it: naive wall-clock minutes, or an
aware value identified by the UTC epoch minute it denotes. -/
inductive Timestamp where
  | naive (wall : Int)
  | aware (epoch : Int)
deriving DecidableEq

/-- The instant a timestamp denotes under the CODE's normalization
(app.py lines 195-199 and 392): a naive value is localized as UTC
(`pytz.utc.localize`), so wall reading `w` denotes epoch minute `w`;
an aware value keeps its instant (`astimezone` only changes display). -/
def toInstant : Timestamp → Int
  | .naive w => w
  | .aware e => e

/-- Modelled from the spec: the instant a timestamp denotes when a naive
value is read in the application's fixed local zone (IST, UTC+5:30):
wall reading `w` in IST is epoch minute `w - 330`. -/
def specToInstant : Timestamp → Int
  | .naive w => w - istOffsetMinutes
  | .aware e => e

/-- A row of the `tasks` table created by `init_db`
(columns id, user_id, description, due_date, completed). -/
structure TaskRow where
  id : Nat
  userId : Nat
  description : String
  dueDate : Option Timestamp
  completed : Bool
deriving DecidableEq

/-- A row of the `users` table. -/
structure AppUser where
  id : Nat
  username : String
  email : String
  passwordHash : String
deriving DecidableEq

/-! ## Dashboard classification (app.py, `dashboard`, lines 181-206)

`now = datetime.now(TZ)` is an aware instant; `soon_threshold = now + 2 days`.
For a row with a due date and `completed` false the code normalizes the due
value (naive treated as UTC, then shown in IST) and sets `overdue` when
`due_dt < now`, else `due_soon` when `due_dt <= soon_threshold`. -/

/-- The pair (overdue, due_soon) the dashboard computes for one row.
`now` is the epoch minute of `datetime.now(TZ)`. -/
def dashClassify (due : Option Timestamp) (completed : Bool) (now : Int) :
    Bool × Bool :=
  match due, completed with
  | some d, false =>
    let dueDt := toInstant d
    if dueDt < now then (true, false)
    else if dueDt ≤ now + 2880 then (false, true)
    else (false, false)
  | _, _ => (false, false)

/-- Modelled from the spec: `overdue = due_timestamp is set AND
due_timestamp < now AND NOT completed`, over a common timeline. -/
def specOverdue (due : Option Int) (completed : Bool) (now : Int) : Bool :=
  match due with
  | none => false
  | some d => !completed && decide (d < now)

/-- Modelled from the spec: `due_soon = due_timestamp is set AND
now <= due_timestamp <= now + 2 days AND NOT completed AND NOT overdue`. -/
def specDueSoon (due : Option Int) (completed : Bool) (now : Int) : Bool :=
  match due with
  | none => false
  | some d =>
    !completed && decide (now ≤ d) && decide (d ≤ now + 2880) &&
      !(specOverdue (some d) completed now)

/-! ## Reminder scanner (app.py, `send_reminders`, lines 372-406)

`now = datetime.utcnow()` is naive; the code localizes it as UTC, localizes a
naive due date as UTC, and computes `delta = due_utc - now_utc`.  A delta in
`[0, 1 day]` sends a "due soon" email, else `due_utc < now_utc` sends an
"overdue" email, else nothing. -/

/-- What the scanner does for one qualifying row. -/
inductive ScanAction where
  | dueSoonEmail
  | overdueEmail
  | noEmail
deriving DecidableEq

/-- The per-row decision of `send_reminders`; `nowUtc` is the epoch minute of
`datetime.utcnow()` read as UTC. -/
def scanAction (due : Timestamp) (nowUtc : Int) : ScanAction :=
  let dueUtc := toInstant due
  let delta := dueUtc - nowUtc
  if 0 ≤ delta ∧ delta ≤ 1440 then .dueSoonEmail
  else if dueUtc < nowUtc then .overdueEmail
  else .noEmail


/-! ## Form-input handling (app.py, `add_task` lines 227-258, `edit_task` 260-302)

The description is `request.form.get('task', '').strip()`; the due string is a
`datetime-local` value `"YYYY-MM-DDTHH:MM"` parsed with `datetime.strptime`,
with a `ValueError` mapped to `None`.  Python's `str.strip` and `strptime` are
standard-library collaborators; they are embedded here over `List Char` so the
definitions compute by kernel reduction. -/

/-- The whitespace test of Python's `str.strip()` for the characters that can
occur in form input. -/
def isPySpace (c : Char) : Bool :=
  c = ' ' || c = '\t' || c = '\n' || c = '\r'

/-- `str.strip()`: drop leading and trailing whitespace. -/
def pyStrip (s : String) : String :=
  String.mk (((s.data.dropWhile isPySpace).reverse.dropWhile isPySpace).reverse)

/-- Split a character list on a separator character. -/
def splitOnChar (sep : Char) : List Char → List (List Char)
  | [] => [[]]
  | c :: cs =>
    let rest := splitOnChar sep cs
    if c = sep then [] :: rest
    else
      match rest with
      | [] => [[c]]
      | g :: gs => (c :: g) :: gs

/-- Decimal digit value. -/
def digitVal (c : Char) : Option Nat :=
  if c.isDigit then some (c.toNat - 48) else none

/-- Read a non-empty all-digit group as a number. -/
def digitsToNat : List Char → Option Nat
  | [] => none
  | cs => go cs 0
where
  go : List Char → Nat → Option Nat
    | [], acc => some acc
    | c :: cs, acc =>
      match digitVal c with
      | some d => go cs (acc * 10 + d)
      | none => none

/-- Gregorian leap-year test. -/
def isLeapYear (y : Int) : Bool :=
  (y % 4 == 0 && y % 100 != 0) || (y % 400 == 0)

/-- Length of a month, as `datetime` validates the day field. -/
def daysInMonth (y m : Int) : Int :=
  if m = 2 then (if isLeapYear y then 29 else 28)
  else if m = 4 ∨ m = 6 ∨ m = 9 ∨ m = 11 then 30
  else 31

/-- Days from 1970-01-01 to the civil date y-m-d (proleptic Gregorian). -/
def daysFromCivil (y m d : Int) : Int :=
  let y' := if m ≤ 2 then y - 1 else y
  let era := Int.fdiv y' 400
  let yoe := y' - era * 400
  let mp := Int.emod (m + 9) 12
  let doy := Int.fdiv (153 * mp + 2) 5 + d - 1
  let doe := yoe * 365 + Int.fdiv yoe 4 - Int.fdiv yoe 100 + doy
  era * 146097 + doe - 719468

/-- `datetime.strptime(s, "%Y-%m-%dT%H:%M")` on a canonical `datetime-local`
string, returning naive wall-clock minutes; `none` models `ValueError`. -/
def parseDueString (s : String) : Option Int :=
  match splitOnChar 'T' s.data with
  | [ds, ts] =>
    match splitOnChar '-' ds, splitOnChar ':' ts with
    | [ys, ms, dds], [hs, mins] =>
      match digitsToNat ys, digitsToNat ms, digitsToNat dds,
            digitsToNat hs, digitsToNat mins with
      | some y, some mo, some dd, some h, some mi =>
        if 1 ≤ y ∧ y ≤ 9999 ∧ 1 ≤ mo ∧ mo ≤ 12 ∧
            1 ≤ (dd : Int) ∧ (dd : Int) ≤ daysInMonth y mo ∧ h ≤ 23 ∧ mi ≤ 59 then
          some (daysFromCivil y mo dd * 1440 + h * 60 + mi)
        else none
      | _, _, _, _, _ => none
    | _, _ => none
  | _ => none

/-- `due = request.form.get('due_date')`: absent or empty is falsy, otherwise
parse, mapping failure to no due date. -/
def parseDueForm (dueForm : Option String) : Option Timestamp :=
  match dueForm with
  | none => none
  | some s => if s = "" then none else (parseDueString s).map .naive


/-! ## Task store operations -/

/-- Columns of the `tasks` table created by `init_db` (app.py lines 43-51). -/
def tasksTableColumns : List String :=
  ["id", "user_id", "description", "due_date", "completed"]

/-- Columns named by the INSERT in `add_task` (app.py line 248). -/
def addTaskInsertColumns : List String :=
  ["title", "description", "due_date", "user_id", "completed"]

/-- Outcome of a POST to `/add`. -/
inductive AddOutcome where
  | missingDescription
  | serverError (missingColumn : String)
  | added
deriving DecidableEq

/-- POST `/add` (app.py lines 229-256): strip the description, reject it when
empty, parse the due string, then run the INSERT.  The INSERT names each
column of `addTaskInsertColumns`; a column absent from the table raises
`UndefinedColumn`, which no handler catches (`serverError`). -/
def addTask (ownerId : Nat) (descForm : String) (dueForm : Option String)
    (store : List TaskRow) (nextId : Nat) : List TaskRow × AddOutcome :=
  let desc := pyStrip descForm
  if desc = "" then (store, .missingDescription)
  else
    let dueTs := parseDueForm dueForm
    match addTaskInsertColumns.find? (fun c => decide (c ∉ tasksTableColumns)) with
    | some c => (store, .serverError c)
    | none =>
      (store ++ [{ id := nextId, userId := ownerId, description := desc,
                   dueDate := dueTs, completed := false }], .added)

/-- Sort key of `ORDER BY due_date IS NULL, due_date`: rows without a due date
come last, the rest ascend by the stored value. -/
def dueLe (a b : TaskRow) : Bool :=
  match a.dueDate, b.dueDate with
  | none, none => true
  | none, some _ => false
  | some _, none => true
  | some da, some db => decide (toInstant da ≤ toInstant db)

/-- Insert one row into a list sorted by `dueLe`. -/
def insertByDue (t : TaskRow) : List TaskRow → List TaskRow
  | [] => [t]
  | u :: us => if dueLe t u then t :: u :: us else u :: insertByDue t us

/-- `ORDER BY due_date IS NULL, due_date` as a sort. -/
def sortByDue : List TaskRow → List TaskRow
  | [] => []
  | t :: ts => insertByDue t (sortByDue ts)

/-- The dashboard's task query (app.py lines 165-170):
`SELECT ... FROM tasks WHERE user_id = %s ORDER BY due_date IS NULL, due_date`. -/
def listTasks (ownerId : Nat) (store : List TaskRow) : List TaskRow :=
  sortByDue (store.filter (fun t => decide (t.userId = ownerId)))

/-- POST `/edit/<task_id>` (app.py lines 262-298): fetch the row scoped to the
session user; absent row or blank description leaves the store unchanged
(`false`); otherwise `UPDATE tasks SET description, due_date WHERE id AND
user_id`.  The Bool records whether the UPDATE ran. -/
def editTask (ownerId taskId : Nat) (descForm : String) (dueForm : Option String)
    (store : List TaskRow) : List TaskRow × Bool :=
  match store.find? (fun t => decide (t.id = taskId ∧ t.userId = ownerId)) with
  | none => (store, false)
  | some _ =>
    let desc := pyStrip descForm
    if desc = "" then (store, false)
    else
      (store.map (fun t =>
        if t.id = taskId ∧ t.userId = ownerId then
          { t with description := desc, dueDate := parseDueForm dueForm }
        else t), true)

/-- POST `/delete` (app.py lines 306-319): `DELETE FROM tasks WHERE id = %s AND
user_id = %s`, then flash `'Task deleted successfully!'` unconditionally. -/
def deleteTask (ownerId taskId : Nat) (store : List TaskRow) :
    List TaskRow × String :=
  (store.filter (fun t => decide (¬(t.id = taskId ∧ t.userId = ownerId))),
   "Task deleted successfully!")

/-- POST `/toggle/<task_id>` (app.py lines 321-335): read `completed` scoped to
the session user; when a row exists, write `completed = not completed` back
under the same scope.  The `Option Bool` is the `new_status` the code computes
(`none` when no row matched, and nothing is written). -/
def toggleTask (ownerId taskId : Nat) (store : List TaskRow) :
    List TaskRow × Option Bool :=
  match store.find? (fun t => decide (t.id = taskId ∧ t.userId = ownerId)) with
  | none => (store, none)
  | some row =>
    let newStatus := !row.completed
    (store.map (fun t =>
      if t.id = taskId ∧ t.userId = ownerId then { t with completed := newStatus }
      else t), some newStatus)

/-! ## Dashboard statistics (app.py, `dashboard`, lines 175-223) -/

/-- The stats dict the dashboard renders. -/
structure DashStats where
  total : Nat
  completed : Nat
  pending : Nat
  overdue : Nat
  dueSoon : Nat
deriving DecidableEq

/-- The counter loop of `dashboard`: for each row count `completed`, and for
rows with a due date and not completed count the branch taken
(`overdue` / `due_soon`). -/
def dashCounts (now : Int) : List TaskRow → Nat × Nat × Nat
  | [] => (0, 0, 0)
  | r :: rs =>
    let (c, o, d) := dashCounts now rs
    let c := if r.completed then c + 1 else c
    match dashClassify r.dueDate r.completed now with
    | (true, _) => (c, o + 1, d)
    | (_, true) => (c, o, d + 1)
    | _ => (c, o, d)

/-- The stats dict built at app.py lines 217-223:
`pending = max(0, total - completed)`. -/
def dashboardStats (rows : List TaskRow) (now : Int) : DashStats :=
  let (c, o, d) := dashCounts now rows
  { total := rows.length, completed := c, pending := rows.length - c,
    overdue := o, dueSoon := d }

/-! ## `/stats` endpoint (app.py, `stats_dashboard`, lines 338-360)

`now = datetime.now()` is NAIVE local wall time; `r['due_date'] < now` compares
stored naive wall values directly, with no normalization; `due_today` compares
calendar dates and ignores the completed flag.  The page shows
total/pending/completed/overdue/due_today — there is no due_soon. -/

/-- The wall value of a stored `due_date` (the column is timezone-less, so
stored values are naive). -/
def storedWall : Timestamp → Int
  | .naive w => w
  | .aware e => e

/-- The calendar date (`.date()`) of a wall reading in minutes. -/
def wallDate (w : Int) : Int := Int.fdiv w 1440

/-- The record `stats_dashboard` renders; `nowWall` is the naive wall reading
of `datetime.now()`. -/
structure StatsPage where
  total : Nat
  pending : Nat
  completed : Nat
  overdue : Nat
  dueToday : Nat
deriving DecidableEq

/-- `stats_dashboard` (app.py lines 340-360). -/
def statsDashboard (uid : Nat) (store : List TaskRow) (nowWall : Int) : StatsPage :=
  let rows := store.filter (fun t => decide (t.userId = uid))
  let total := rows.length
  let completed := rows.countP (fun r => r.completed)
  let pending := total - completed
  let overdue := rows.countP (fun r =>
    match r.dueDate with
    | some d => decide (storedWall d < nowWall) && !r.completed
    | none => false)
  let dueToday := rows.countP (fun r =>
    match r.dueDate with
    | some d => decide (wallDate (storedWall d) = wallDate nowWall)
    | none => false)
  { total := total, pending := pending, completed := completed,
    overdue := overdue, dueToday := dueToday }

/-- Modelled from the spec: `aggregate_stats(owner_id, now)` loads the owner's
tasks and applies the Time Classifier (naive read in the local zone) to each;
`pending = total - completed`. -/
def specAggregateStats (uid : Nat) (store : List TaskRow) (now : Int) : DashStats :=
  let rows := store.filter (fun t => decide (t.userId = uid))
  let total := rows.length
  let completed := rows.countP (fun r => r.completed)
  { total := total, completed := completed, pending := total - completed,
    overdue := rows.countP (fun r =>
      specOverdue (r.dueDate.map specToInstant) r.completed now),
    dueSoon := rows.countP (fun r =>
      specDueSoon (r.dueDate.map specToInstant) r.completed now) }

/-! ## The reminder scan as a run (app.py, `send_reminders`, lines 372-406)

The SQL pulls every task with a due date and `completed = FALSE`, joined to its
owner's email.  `send_reminder_email` (lines 363-370) returns without sending
when mail credentials are absent; otherwise `mail.send` may raise, and neither
it nor the scan loop has a handler, so an exception ends the loop. -/

/-- One row of the scan query. -/
structure ScanRow where
  taskId : Nat
  description : String
  due : Timestamp
  email : String
  username : String
deriving DecidableEq

/-- The scan query: tasks with a due date, not completed, inner-joined to the
owning user. -/
def scanRows (users : List AppUser) (tasks : List TaskRow) : List ScanRow :=
  tasks.filterMap (fun t =>
    match t.dueDate with
    | none => none
    | some d =>
      if t.completed then none
      else
        (users.find? (fun u => decide (u.id = t.userId))).map (fun u =>
          { taskId := t.id, description := t.description, due := d,
            email := u.email, username := u.username }))

/-- The mail collaborator: whether credentials are configured, and whether the
transport delivers (by task, `false` = `mail.send` raises). -/
structure MailEnv where
  credsPresent : Bool
  transport : Nat → Bool

/-- Outcome of one scan run: emails dispatched in order, whether an exception
escaped the loop, and how many rows the loop reached. -/
structure ScanResult where
  sent : List (Nat × ScanAction)
  aborted : Bool
  processed : Nat
deriving DecidableEq

/-- The scan loop.  A row whose classification requires an email goes through
`send_reminder_email`: skipped (logged) when credentials are absent; recorded
when the transport delivers; otherwise the exception propagates and the
remaining rows are never evaluated. -/
def sendReminders (env : MailEnv) (now : Int) : List ScanRow → ScanResult
  | [] => { sent := [], aborted := false, processed := 0 }
  | r :: rest =>
    match scanAction r.due now with
    | .noEmail =>
      let s := sendReminders env now rest
      { s with processed := s.processed + 1 }
    | act =>
      if env.credsPresent then
        if env.transport r.taskId then
          let s := sendReminders env now rest
          { sent := (r.taskId, act) :: s.sent, aborted := s.aborted,
            processed := s.processed + 1 }
        else { sent := [], aborted := true, processed := 1 }
      else
        let s := sendReminders env now rest
        { s with processed := s.processed + 1 }

/-! ## Helper lemmas -/

/-- The dashboard classifier takes exactly one of three branches. -/
lemma dashClassify_cases (due : Option Timestamp) (completed : Bool) (now : Int) :
    dashClassify due completed now = (true, false) ∨
    dashClassify due completed now = (false, true) ∨
    dashClassify due completed now = (false, false) := by
  rcases due with _ | d
  · cases completed <;> simp [dashClassify]
  · cases completed
    · simp only [dashClassify]
      split_ifs <;> simp
    · simp [dashClassify]

/-- C1: the dashboard classification (app.py lines 181-206) agrees with the
spec's reference definition over the normalized timeline: absent due date or a
completed task gives (false, false); otherwise overdue iff the due instant is
strictly before now, due_soon iff it lies in [now, now + 48h] and the task is
not overdue; the two flags are never both true. -/
theorem C1_dashboard_matches_spec (due : Option Timestamp) (completed : Bool)
    (now : Int) :
    dashClassify due completed now =
      (specOverdue (due.map toInstant) completed now,
       specDueSoon (due.map toInstant) completed now) ∧
    ((dashClassify due completed now).1 && (dashClassify due completed now).2)
      = false := by
  constructor
  · rcases due with _ | d
    · cases completed <;> simp [dashClassify, specOverdue, specDueSoon]
    · cases completed
      · simp only [dashClassify, specOverdue, specDueSoon, Option.map_some']
        split_ifs with h1 h2
        · simp [h1, show ¬(now ≤ toInstant d) by omega]
        · simp [h1, h2, show now ≤ toInstant d by omega]
        · simp [h1, h2]
      · simp [dashClassify, specOverdue, specDueSoon]
  · rcases dashClassify_cases due completed now with h | h | h <;> rw [h] <;> rfl

/-- C2 counterexample: the code does NOT read a naive timestamp in the
application's local zone.  With `now` at epoch minute 1000, the naive wall
reading 1200 is classified due_soon by the dashboard and "due soon" by the
scanner, while the instant it denotes in the local zone (epoch 870) is
classified overdue by both: the code treats the naive value as UTC. -/
theorem C2_counterexample :
    dashClassify (some (.naive 1200)) false 1000 = (false, true) ∧
    dashClassify (some (.aware (specToInstant (.naive 1200)))) false 1000
      = (true, false) ∧
    scanAction (.naive 1200) 1000 = .dueSoonEmail ∧
    scanAction (.aware (specToInstant (.naive 1200))) 1000 = .overdueEmail := by
  decide

/-- C2 amended: in both the dashboard classification and the reminder scan, a
naive timestamp is treated as UTC (classified exactly like the aware UTC
instant with the same reading), every timestamp is normalized to the instant
`toInstant` before comparison, and no comparison mixes a naive value with an
aware one. -/
theorem C2_naive_treated_as_utc (w : Int) (completed : Bool) (now : Int)
    (ts : Timestamp) :
    dashClassify (some (.naive w)) completed now
      = dashClassify (some (.aware w)) completed now ∧
    scanAction (.naive w) now = scanAction (.aware w) now ∧
    dashClassify (some ts) completed now
      = dashClassify (some (.aware (toInstant ts))) completed now ∧
    scanAction ts now = scanAction (.aware (toInstant ts)) now := by
  refine ⟨?_, rfl, ?_, ?_⟩
  · cases completed <;> rfl
  · cases ts <;> cases completed <;> rfl
  · cases ts <;> rfl

/-- C3: for an incomplete task due strictly more than 24h and at most 48h after
now, the dashboard marks due_soon while the scanner sends nothing; the
scanner's "due soon" window is exactly [now, now + 24h], "overdue" exactly the
instants strictly before now, and everything later than now + 24h gets no
email — so each task gets at most one email per scan. -/
theorem C3_scanner_day_window (now due d : Int)
    (h1 : now + 1440 < due) (h2 : due ≤ now + 2880) :
    dashClassify (some (.aware due)) false now = (false, true) ∧
    scanAction (.aware due) now = .noEmail ∧
    (scanAction (.aware d) now = .dueSoonEmail ↔ now ≤ d ∧ d ≤ now + 1440) ∧
    (scanAction (.aware d) now = .overdueEmail ↔ d < now) ∧
    (scanAction (.aware d) now = .noEmail ↔ now + 1440 < d) := by
  refine ⟨?_, ?_, ?_, ?_, ?_⟩
  · simp only [dashClassify, toInstant]
    split_ifs <;> first | rfl | omega
  · simp only [scanAction, toInstant]
    split_ifs <;> first | rfl | omega
  · simp only [scanAction, toInstant]
    split_ifs with ha hb <;> simp <;> omega
  · simp only [scanAction, toInstant]
    split_ifs with ha hb <;> simp <;> omega
  · simp only [scanAction, toInstant]
    split_ifs with ha hb <;> simp <;> omega

/-- Witness for C3 at now = 0, a task due 30 hours out (minute 1800), and a
probe instant d = -5. -/
theorem C3_scanner_day_window_witness :
    (0 : Int) + 1440 < 1800 ∧ (1800 : Int) ≤ 0 + 2880 ∧
    (dashClassify (some (.aware 1800)) false 0 = (false, true) ∧
     scanAction (.aware 1800) 0 = .noEmail ∧
     (scanAction (.aware (-5)) 0 = .dueSoonEmail ↔ (0:Int) ≤ -5 ∧ (-5:Int) ≤ 0 + 1440) ∧
     (scanAction (.aware (-5)) 0 = .overdueEmail ↔ (-5:Int) < 0) ∧
     (scanAction (.aware (-5)) 0 = .noEmail ↔ (0:Int) + 1440 < -5)) :=
  ⟨by decide, by decide, C3_scanner_day_window 0 1800 (-5) (by decide) (by decide)⟩

/-- C4: the round-trip fails against the schema `init_db` creates.  The INSERT
in `add_task` names a `title` column that the `tasks` table does not have, so
adding "Buy milk" due 2025-01-01T10:00 to an empty store raises
UndefinedColumn instead of succeeding, and the subsequent listing is empty. -/
theorem C4_add_insert_schema_mismatch :
    addTask 1 "Buy milk" (some "2025-01-01T10:00") [] 1
      = ([], .serverError "title") ∧
    "title" ∈ addTaskInsertColumns ∧
    "title" ∉ tasksTableColumns ∧
    listTasks 1 (addTask 1 "Buy milk" (some "2025-01-01T10:00") [] 1).1 = [] := by
  refine ⟨by decide, by decide, by decide, by decide⟩

/-- C5 counterexample: deleting task 1 as user 2 when task 1 belongs to user 1
removes nothing yet still reports `'Task deleted successfully!'` — the route
never reports NotFound and reports success for an id the caller does not own. -/
theorem C5_counterexample :
    deleteTask 2 1
        [{ id := 1, userId := 1, description := "x", dueDate := none,
           completed := false }]
      = ([{ id := 1, userId := 1, description := "x", dueDate := none,
            completed := false }], "Task deleted successfully!") ∧
    ([({ id := 1, userId := 1, description := "x", dueDate := none,
         completed := false } : TaskRow)].all
       fun t => !decide (t.id = 1 ∧ t.userId = 2)) = true := by
  refine ⟨by decide, by decide⟩

/-- C5 amended: `delete_task` removes exactly the rows with the given id owned
by the caller — it never deletes a task the caller does not own — but it always
flashes the success message, whether or not such a row existed; no NotFound
outcome exists. -/
theorem C5_delete_scoped_but_always_success (ownerId taskId : Nat)
    (store : List TaskRow) (t : TaskRow) :
    (deleteTask ownerId taskId store).2 = "Task deleted successfully!" ∧
    (t ∈ (deleteTask ownerId taskId store).1 ↔
      t ∈ store ∧ ¬(t.id = taskId ∧ t.userId = ownerId)) := by
  refine ⟨rfl, ?_⟩
  simp only [deleteTask, List.mem_filter, decide_eq_true_eq]

/-- Witness for C5 amended: user 2 deleting task 1 owned by user 1. -/
theorem C5_delete_scoped_but_always_success_witness :
    (deleteTask 2 1
        [{ id := 1, userId := 1, description := "x", dueDate := none,
           completed := false }]).2 = "Task deleted successfully!" ∧
    ({ id := 1, userId := 1, description := "x", dueDate := none,
       completed := false } ∈
        (deleteTask 2 1
          [{ id := 1, userId := 1, description := "x", dueDate := none,
             completed := false }]).1 ↔
      ({ id := 1, userId := 1, description := "x", dueDate := none,
         completed := false } : TaskRow) ∈
          [{ id := 1, userId := 1, description := "x", dueDate := none,
             completed := false }] ∧
        ¬((1 : Nat) = 1 ∧ (1 : Nat) = 2)) :=
  C5_delete_scoped_but_always_success 2 1 _ _

/-- With mail credentials absent, `send_reminder_email` returns after logging,
so the scan dispatches nothing, raises nothing, and reaches every row. -/
lemma sendReminders_no_creds (env : MailEnv) (h : env.credsPresent = false)
    (now : Int) (rows : List ScanRow) :
    sendReminders env now rows
      = { sent := [], aborted := false, processed := rows.length } := by
  induction rows with
  | nil => rfl
  | cons r rest ih =>
    simp only [sendReminders]
    cases scanAction r.due now <;> simp [h, ih, List.length_cons]

/-- The mail environment of the C6 counterexample: credentials configured, and
the transport raising for task 1 only. -/
def c6env : MailEnv :=
  { credsPresent := true, transport := fun taskId => decide (taskId ≠ 1) }

/-- C6 counterexample: two overdue rows; `mail.send` raises on the first.  The
run records no email, the exception escapes, and only one row is reached —
although the second row also qualifies for an overdue email. -/
theorem C6_counterexample :
    scanAction (Timestamp.aware (-20)) 0 = .overdueEmail ∧
    sendReminders c6env 0
        [{ taskId := 1, description := "t1", due := .aware (-10),
           email := "a@x", username := "alice" },
         { taskId := 2, description := "t2", due := .aware (-20),
           email := "b@x", username := "bob" }]
      = { sent := [], aborted := true, processed := 1 } := by
  refine ⟨by decide, by decide⟩

/-- C6 amended: a raising dispatch aborts the scan — when credentials are
present, the row's classification requires an email, and the transport raises,
the run stops at that row with nothing sent and the remaining rows are never
evaluated.  Only the credentials-absent skip is logged-and-continue: such a
run reaches every row and sends nothing. -/
theorem C6_dispatch_failure_aborts (env : MailEnv) (r : ScanRow)
    (rest : List ScanRow) (now : Int)
    (hc : env.credsPresent = true)
    (ha : scanAction r.due now ≠ .noEmail)
    (hf : env.transport r.taskId = false)
    (env2 : MailEnv) (h2 : env2.credsPresent = false) :
    sendReminders env now (r :: rest)
      = { sent := [], aborted := true, processed := 1 } ∧
    sendReminders env2 now (r :: rest)
      = { sent := [], aborted := false, processed := rest.length + 1 } := by
  constructor
  · simp only [sendReminders]
    cases hA : scanAction r.due now
    · simp [hc, hf]
    · simp [hc, hf]
    · exact absurd hA ha
  · rw [sendReminders_no_creds env2 h2]
    simp

/-- Witness for C6 amended: a single overdue row, a raising transport, and a
credential-less environment. -/
theorem C6_dispatch_failure_aborts_witness :
    ({ credsPresent := true, transport := fun _ => false } : MailEnv).credsPresent
        = true ∧
    scanAction ({ taskId := 7, description := "t", due := .aware (-10),
                  email := "a@x", username := "al" } : ScanRow).due 0 ≠ .noEmail ∧
    ({ credsPresent := true, transport := fun _ => false } : MailEnv).transport 7
        = false ∧
    ({ credsPresent := false, transport := fun _ => true } : MailEnv).credsPresent
        = false ∧
    (sendReminders { credsPresent := true, transport := fun _ => false } 0
        [{ taskId := 7, description := "t", due := .aware (-10),
           email := "a@x", username := "al" }]
      = { sent := [], aborted := true, processed := 1 } ∧
     sendReminders { credsPresent := false, transport := fun _ => true } 0
        [{ taskId := 7, description := "t", due := .aware (-10),
           email := "a@x", username := "al" }]
      = { sent := [], aborted := false, processed := 1 }) :=
  ⟨rfl, by decide, rfl, rfl,
   C6_dispatch_failure_aborts _ _ _ 0 rfl (by decide) rfl _ rfl⟩

/-- Membership through `insertByDue`. -/
lemma mem_insertByDue (u t : TaskRow) (l : List TaskRow) :
    u ∈ insertByDue t l ↔ u = t ∨ u ∈ l := by
  induction l with
  | nil => simp [insertByDue]
  | cons a as ih =>
    simp only [insertByDue]
    split_ifs
    · simp [List.mem_cons]
    · simp [List.mem_cons, ih]
      tauto

/-- Sorting by due date does not change which rows appear. -/
lemma mem_sortByDue (u : TaskRow) (l : List TaskRow) :
    u ∈ sortByDue l ↔ u ∈ l := by
  induction l with
  | nil => simp [sortByDue]
  | cons a as ih => simp [sortByDue, mem_insertByDue, ih]

/-- C7: owner isolation.  A task owned by A is never in B's dashboard listing
when B ≠ A; every listed row belongs to B; and the edit, toggle, and delete
operations issued by B leave A's task in the store untouched, because every
query filters on the owning user's id. -/
theorem C7_owner_isolation (A B taskId : Nat) (descForm : String)
    (dueForm : Option String) (t : TaskRow) (store : List TaskRow)
    (hAB : A ≠ B) (ht : t ∈ store) (how : t.userId = A) :
    t ∉ listTasks B store ∧
    ((listTasks B store).all fun u => decide (u.userId = B)) = true ∧
    t ∈ (editTask B taskId descForm dueForm store).1 ∧
    t ∈ (toggleTask B taskId store).1 ∧
    t ∈ (deleteTask B taskId store).1 := by
  have hnotB : ¬(t.id = taskId ∧ t.userId = B) := by
    rintro ⟨-, h⟩
    exact hAB (how ▸ h.symm ▸ rfl)
  refine ⟨?_, ?_, ?_, ?_, ?_⟩
  · intro hmem
    rw [listTasks, mem_sortByDue, List.mem_filter] at hmem
    exact hAB (by simpa [how] using hmem.2)
  · rw [List.all_eq_true]
    intro u hu
    rw [listTasks, mem_sortByDue, List.mem_filter] at hu
    exact hu.2
  · cases hf : store.find? (fun u => decide (u.id = taskId ∧ u.userId = B)) with
    | none =>
      simp only [editTask, hf]
      exact ht
    | some row =>
      by_cases hd : pyStrip descForm = ""
      · simp only [editTask, hf, if_pos hd]
        exact ht
      · simp only [editTask, hf, if_neg hd]
        exact List.mem_map.mpr ⟨t, ht, if_neg hnotB⟩
  · cases hf : store.find? (fun u => decide (u.id = taskId ∧ u.userId = B)) with
    | none =>
      simp only [toggleTask, hf]
      exact ht
    | some row =>
      simp only [toggleTask, hf]
      exact List.mem_map.mpr ⟨t, ht, if_neg hnotB⟩
  · exact List.mem_filter.mpr ⟨ht, decide_eq_true hnotB⟩

/-- Witness for C7: user 1's task, viewed and mutated as user 2. -/
theorem C7_owner_isolation_witness :
    (1 : Nat) ≠ 2 ∧
    ({ id := 1, userId := 1, description := "x", dueDate := none,
       completed := false } : TaskRow) ∈
      [({ id := 1, userId := 1, description := "x", dueDate := none,
          completed := false } : TaskRow)] ∧
    ({ id := 1, userId := 1, description := "x", dueDate := none,
       completed := false } : TaskRow).userId = 1 ∧
    (({ id := 1, userId := 1, description := "x", dueDate := none,
        completed := false } : TaskRow) ∉
        listTasks 2 [{ id := 1, userId := 1, description := "x", dueDate := none,
                       completed := false }] ∧
     ((listTasks 2 [{ id := 1, userId := 1, description := "x", dueDate := none,
                      completed := false }]).all
        fun u => decide (u.userId = 2)) = true ∧
     ({ id := 1, userId := 1, description := "x", dueDate := none,
        completed := false } : TaskRow) ∈
       (editTask 2 1 "d" none
         [{ id := 1, userId := 1, description := "x", dueDate := none,
            completed := false }]).1 ∧
     ({ id := 1, userId := 1, description := "x", dueDate := none,
        completed := false } : TaskRow) ∈
       (toggleTask 2 1
         [{ id := 1, userId := 1, description := "x", dueDate := none,
            completed := false }]).1 ∧
     ({ id := 1, userId := 1, description := "x", dueDate := none,
        completed := false } : TaskRow) ∈
       (deleteTask 2 1
         [{ id := 1, userId := 1, description := "x", dueDate := none,
            completed := false }]).1) :=
  ⟨by decide, by decide, rfl,
   C7_owner_isolation 1 2 1 "d" none _ _ (by decide) (by decide) rfl⟩

/-- A completed task classifies as neither overdue nor due_soon. -/
lemma dashClassify_completed (due : Option Timestamp) (now : Int) :
    dashClassify due true now = (false, false) := by
  cases due <;> rfl

/-- The dashboard counter loop equals declarative counts over the classifier. -/
lemma dashCounts_eq (now : Int) (rows : List TaskRow) :
    dashCounts now rows =
      (rows.countP (fun r => r.completed),
       rows.countP (fun r => (dashClassify r.dueDate r.completed now).1),
       rows.countP (fun r => (dashClassify r.dueDate r.completed now).2)) := by
  induction rows with
  | nil => rfl
  | cons r rs ih =>
    simp only [dashCounts, ih, List.countP_cons]
    rcases dashClassify_cases r.dueDate r.completed now with h | h | h <;>
        cases hc : r.completed <;> rw [hc] at h
    · simp [h]
    · rw [dashClassify_completed] at h
      simp at h
    · simp [h]
    · rw [dashClassify_completed] at h
      simp at h
    · simp [h]
    · simp [h]

/-- C8 counterexample: user 1 has a single incomplete task due tomorrow (naive
minute 11000, local wall now 10000).  The Time Classifier counts it due_soon,
but the `/stats` page carries no due_soon figure: it reports `due_today`,
which is 0 here — the page's five fields are total/pending/completed/overdue/
due_today, not the claimed set. -/
theorem C8_counterexample :
    statsDashboard 1
        [{ id := 1, userId := 1, description := "b",
           dueDate := some (.naive 11000), completed := false }] 10000
      = { total := 1, pending := 1, completed := 0, overdue := 0, dueToday := 0 } ∧
    specAggregateStats 1
        [{ id := 1, userId := 1, description := "b",
           dueDate := some (.naive 11000), completed := false }]
        (10000 - istOffsetMinutes)
      = { total := 1, completed := 0, pending := 1, overdue := 0, dueSoon := 1 } := by
  refine ⟨by decide, by decide⟩

/-- C8 amended: the dashboard's own stats dict does satisfy the claim — it is
exactly {total, completed, pending = total - completed, overdue, due_soon}
with the flag counts taken from its classifier.  The separate `/stats` page
instead reports due_today in place of due_soon; its overdue figure, a direct
naive wall-clock comparison, coincides with the local-zone classifier's
overdue count whenever every stored due date is naive (which the write paths
guarantee), and its pending is total - completed. -/
theorem C8_stats_amended (rows : List TaskRow) (now : Int) (uid : Nat)
    (store : List TaskRow) (nowWall : Int)
    (hn : (store.all fun t =>
        match t.dueDate with
        | some (Timestamp.aware _) => false
        | _ => true) = true) :
    dashboardStats rows now =
      { total := rows.length,
        completed := rows.countP (fun r => r.completed),
        pending := rows.length - rows.countP (fun r => r.completed),
        overdue := rows.countP
          (fun r => (dashClassify r.dueDate r.completed now).1),
        dueSoon := rows.countP
          (fun r => (dashClassify r.dueDate r.completed now).2) } ∧
    (statsDashboard uid store nowWall).overdue =
      (store.filter (fun t => decide (t.userId = uid))).countP
        (fun r => specOverdue (r.dueDate.map specToInstant) r.completed
          (nowWall - istOffsetMinutes)) ∧
    (statsDashboard uid store nowWall).pending =
      (statsDashboard uid store nowWall).total
        - (statsDashboard uid store nowWall).completed := by
  refine ⟨?_, ?_, rfl⟩
  · simp only [dashboardStats, dashCounts_eq]
  · simp only [statsDashboard]
    apply List.countP_congr
    intro r hr
    have hrs : r ∈ store := List.mem_of_mem_filter hr
    have hnd := (List.all_eq_true.mp hn) r hrs
    cases hdd : r.dueDate with
    | none => simp [specOverdue, hdd]
    | some d =>
      cases d with
      | aware e => rw [hdd] at hnd; simp at hnd
      | naive w =>
        have hiff : (w - istOffsetMinutes < nowWall - istOffsetMinutes)
            ↔ (w < nowWall) := by omega
        simp [hdd, specOverdue, specToInstant, storedWall, hiff, Bool.and_comm]

/-- Witness for C8 amended, at the one-task store of the counterexample. -/
theorem C8_stats_amended_witness :
    (([{ id := 1, userId := 1, description := "b",
         dueDate := some (.naive 11000), completed := false }] : List TaskRow).all
      fun t => match t.dueDate with
        | some (Timestamp.aware _) => false
        | _ => true) = true ∧
    (dashboardStats
        [{ id := 1, userId := 1, description := "b",
           dueDate := some (.naive 11000), completed := false }] 9670 =
      { total := ([{ id := 1, userId := 1, description := "b",
                     dueDate := some (.naive 11000), completed := false }] :
                    List TaskRow).length,
        completed := ([{ id := 1, userId := 1, description := "b",
                         dueDate := some (.naive 11000), completed := false }] :
                        List TaskRow).countP (fun r => r.completed),
        pending := ([{ id := 1, userId := 1, description := "b",
                       dueDate := some (.naive 11000), completed := false }] :
                      List TaskRow).length -
                   ([{ id := 1, userId := 1, description := "b",
                       dueDate := some (.naive 11000), completed := false }] :
                      List TaskRow).countP (fun r => r.completed),
        overdue := ([{ id := 1, userId := 1, description := "b",
                       dueDate := some (.naive 11000), completed := false }] :
                      List TaskRow).countP
          (fun r => (dashClassify r.dueDate r.completed 9670).1),
        dueSoon := ([{ id := 1, userId := 1, description := "b",
                       dueDate := some (.naive 11000), completed := false }] :
                      List TaskRow).countP
          (fun r => (dashClassify r.dueDate r.completed 9670).2) } ∧
     (statsDashboard 1
        [{ id := 1, userId := 1, description := "b",
           dueDate := some (.naive 11000), completed := false }] 10000).overdue =
      (([{ id := 1, userId := 1, description := "b",
           dueDate := some (.naive 11000), completed := false }] :
          List TaskRow).filter (fun t => decide (t.userId = 1))).countP
        (fun r => specOverdue (r.dueDate.map specToInstant) r.completed
          (10000 - istOffsetMinutes)) ∧
     (statsDashboard 1
        [{ id := 1, userId := 1, description := "b",
           dueDate := some (.naive 11000), completed := false }] 10000).pending =
      (statsDashboard 1
        [{ id := 1, userId := 1, description := "b",
           dueDate := some (.naive 11000), completed := false }] 10000).total -
      (statsDashboard 1
        [{ id := 1, userId := 1, description := "b",
           dueDate := some (.naive 11000), completed := false }] 10000).completed) :=
  ⟨by decide, C8_stats_amended _ 9670 1 _ 10000 (by decide)⟩

/-- A list whose members map to themselves is unchanged by `map`. -/
lemma map_eq_self_of_mem {α : Type} {l : List α} {f : α → α}
    (h : ∀ a ∈ l, f a = a) : l.map f = l := by
  induction l with
  | nil => rfl
  | cons a as ih =>
    simp only [List.map_cons, h a (List.mem_cons_self a as)]
    rw [ih (fun b hb => h b (List.mem_cons_of_mem a hb))]

/-- Two members of a store with pairwise-distinct ids sharing an id are the
same row. -/
lemma mem_id_unique {store : List TaskRow} {u t : TaskRow}
    (hu : store.Pairwise (fun a b => a.id ≠ b.id))
    (hmu : u ∈ store) (hmt : t ∈ store) (h : u.id = t.id) : u = t := by
  induction store with
  | nil => cases hmu
  | cons a as ih =>
    have hhead := (List.pairwise_cons.mp hu).1
    have htail := (List.pairwise_cons.mp hu).2
    rcases List.mem_cons.mp hmu with rfl | hmu' <;>
      rcases List.mem_cons.mp hmt with rfl | hmt'
    · rfl
    · exact absurd h (hhead t hmt')
    · exact absurd h.symm (hhead u hmu')
    · exact ih htail hmu' hmt'

/-- In a store with pairwise-distinct ids (the SERIAL primary key), the
ownership lookup finds exactly the matching row. -/
lemma find_owner_unique (taskId ownerId : Nat) (store : List TaskRow)
    (t : TaskRow) (hu : store.Pairwise (fun a b => a.id ≠ b.id))
    (ht : t ∈ store) (hid : t.id = taskId) (how : t.userId = ownerId) :
    store.find? (fun u => decide (u.id = taskId ∧ u.userId = ownerId))
      = some t := by
  induction store with
  | nil => cases ht
  | cons a as ih =>
    have hhead := (List.pairwise_cons.mp hu).1
    have htail := (List.pairwise_cons.mp hu).2
    rcases List.mem_cons.mp ht with rfl | hmem
    · exact List.find?_cons_of_pos _ (decide_eq_true ⟨hid, how⟩)
    · rw [List.find?_cons_of_neg]
      · exact ih htail hmem
      · intro hpa
        have hp := of_decide_eq_true hpa
        exact hhead t hmem (hp.1.trans hid.symm)

/-- C9: toggling is an involution on an owner's task.  With distinct task ids,
one toggle reports the flipped flag, a second toggle reports the original
flag, and the store returns exactly to its original contents. -/
theorem C9_toggle_idempotent (ownerId taskId : Nat) (store : List TaskRow)
    (t : TaskRow) (hu : store.Pairwise (fun a b => a.id ≠ b.id))
    (ht : t ∈ store) (hid : t.id = taskId) (how : t.userId = ownerId) :
    (toggleTask ownerId taskId store).2 = some (!t.completed) ∧
    (toggleTask ownerId taskId (toggleTask ownerId taskId store).1).2
      = some t.completed ∧
    (toggleTask ownerId taskId (toggleTask ownerId taskId store).1).1
      = store := by
  have hfind1 := find_owner_unique taskId ownerId store t hu ht hid how
  have h1 : toggleTask ownerId taskId store =
      (store.map (fun u =>
        if u.id = taskId ∧ u.userId = ownerId then
          { u with completed := !t.completed } else u),
       some (!t.completed)) := by
    simp only [toggleTask, hfind1]
  set f : TaskRow → TaskRow := fun u =>
    if u.id = taskId ∧ u.userId = ownerId then
      { u with completed := !t.completed } else u with hfdef
  have hfid : ∀ u, (f u).id = u.id := by
    intro u
    simp only [hfdef]
    split_ifs <;> rfl
  have hfuid : ∀ u, (f u).userId = u.userId := by
    intro u
    simp only [hfdef]
    split_ifs <;> rfl
  have hft : f t = { t with completed := !t.completed } := by
    simp only [hfdef]
    rw [if_pos ⟨hid, how⟩]
  have hu1 : (store.map f).Pairwise (fun a b => a.id ≠ b.id) :=
    List.pairwise_map.mpr (hu.imp (fun {a b} h => by rw [hfid, hfid]; exact h))
  have hfind2 := find_owner_unique taskId ownerId (store.map f) (f t) hu1
    (List.mem_map_of_mem f ht) ((hfid t).trans hid) ((hfuid t).trans how)
  have hftc : (f t).completed = !t.completed := by rw [hft]
  have h2 : toggleTask ownerId taskId (store.map f) =
      ((store.map f).map (fun u =>
        if u.id = taskId ∧ u.userId = ownerId then
          { u with completed := !(f t).completed } else u),
       some (!(f t).completed)) := by
    simp only [toggleTask, hfind2]
  refine ⟨by rw [h1], ?_, ?_⟩
  · rw [h1]
    simp only
    rw [h2]
    simp only
    rw [hftc, Bool.not_not]
  · rw [h1]
    simp only
    rw [h2]
    simp only
    rw [List.map_map]
    apply map_eq_self_of_mem
    intro u humem
    simp only [Function.comp_apply]
    by_cases hcond : u.id = taskId ∧ u.userId = ownerId
    · have hut : u = t :=
        mem_id_unique hu humem ht (hcond.1.trans hid.symm)
      subst hut
      rw [hft, if_pos]
      · simp
      · exact ⟨hid, how⟩
    · rw [show f u = u from by simp only [hfdef]; rw [if_neg hcond],
          if_neg hcond]

/-- Witness for C9 on a one-task store. -/
theorem C9_toggle_idempotent_witness :
    ([({ id := 1, userId := 1, description := "x", dueDate := none,
         completed := false } : TaskRow)].Pairwise (fun a b => a.id ≠ b.id)) ∧
    ({ id := 1, userId := 1, description := "x", dueDate := none,
       completed := false } : TaskRow) ∈
      [({ id := 1, userId := 1, description := "x", dueDate := none,
          completed := false } : TaskRow)] ∧
    (({ id := 1, userId := 1, description := "x", dueDate := none,
        completed := false } : TaskRow).id = 1) ∧
    (({ id := 1, userId := 1, description := "x", dueDate := none,
        completed := false } : TaskRow).userId = 1) ∧
    ((toggleTask 1 1
        [{ id := 1, userId := 1, description := "x", dueDate := none,
           completed := false }]).2
      = some (!({ id := 1, userId := 1, description := "x", dueDate := none,
                  completed := false } : TaskRow).completed) ∧
     (toggleTask 1 1
        (toggleTask 1 1
          [{ id := 1, userId := 1, description := "x", dueDate := none,
             completed := false }]).1).2
      = some ({ id := 1, userId := 1, description := "x", dueDate := none,
                completed := false } : TaskRow).completed ∧
     (toggleTask 1 1
        (toggleTask 1 1
          [{ id := 1, userId := 1, description := "x", dueDate := none,
             completed := false }]).1).1
      = [{ id := 1, userId := 1, description := "x", dueDate := none,
           completed := false }]) :=
  ⟨List.pairwise_singleton _ _, List.mem_singleton.mpr rfl, rfl, rfl,
   C9_toggle_idempotent 1 1 _ _ (List.pairwise_singleton _ _)
     (List.mem_singleton.mpr rfl) rfl rfl⟩

/-- C10: a successful edit is frame-bounded.  Row for row, the result of
`edit_task` keeps every id, owner, and completed flag; rows that are not the
caller's targeted task are unchanged entirely; and when the UPDATE ran, the
targeted rows carry exactly the stripped description and the parsed due
timestamp — nothing else in the store moves. -/
theorem C10_edit_frame (ownerId taskId : Nat) (descForm : String)
    (dueForm : Option String) (store : List TaskRow) :
    List.Forall₂ (fun old new =>
        new.id = old.id ∧ new.userId = old.userId ∧
        new.completed = old.completed ∧
        (¬(old.id = taskId ∧ old.userId = ownerId) → new = old) ∧
        ((editTask ownerId taskId descForm dueForm store).2 = true →
          (old.id = taskId ∧ old.userId = ownerId) →
          new.description = pyStrip descForm ∧
          new.dueDate = parseDueForm dueForm))
      store (editTask ownerId taskId descForm dueForm store).1 := by
  cases hf : store.find? (fun u => decide (u.id = taskId ∧ u.userId = ownerId))
    with
  | none =>
    simp only [editTask, hf]
    exact List.forall₂_same.mpr (fun a _ =>
      ⟨rfl, rfl, rfl, fun _ => rfl, fun hsucc => by cases hsucc⟩)
  | some row =>
    by_cases hd : pyStrip descForm = ""
    · simp only [editTask, hf, if_pos hd]
      exact List.forall₂_same.mpr (fun a _ =>
        ⟨rfl, rfl, rfl, fun _ => rfl, fun hsucc => by cases hsucc⟩)
    · simp only [editTask, hf, if_neg hd]
      rw [List.forall₂_map_right_iff]
      refine List.forall₂_same.mpr (fun a _ => ?_)
      by_cases hcond : a.id = taskId ∧ a.userId = ownerId
      · rw [if_pos hcond]
        exact ⟨rfl, rfl, rfl, fun hn => absurd hcond hn,
               fun _ _ => ⟨rfl, rfl⟩⟩
      · rw [if_neg hcond]
        exact ⟨rfl, rfl, rfl, fun _ => rfl, fun _ hc => absurd hc hcond⟩

/-- Witness for C10: editing task 1 of user 1 in a two-task store. -/
theorem C10_edit_frame_witness :
    List.Forall₂ (fun old new =>
        new.id = old.id ∧ new.userId = old.userId ∧
        new.completed = old.completed ∧
        (¬(old.id = 1 ∧ old.userId = 1) → new = old) ∧
        ((editTask 1 1 " new desc " (some "2025-01-01T10:00")
            [{ id := 1, userId := 1, description := "x", dueDate := none,
               completed := false },
             { id := 2, userId := 1, description := "y",
               dueDate := some (.naive 50), completed := true }]).2 = true →
          (old.id = 1 ∧ old.userId = 1) →
          new.description = pyStrip " new desc " ∧
          new.dueDate = parseDueForm (some "2025-01-01T10:00")))
      [{ id := 1, userId := 1, description := "x", dueDate := none,
         completed := false },
       { id := 2, userId := 1, description := "y",
         dueDate := some (.naive 50), completed := true }]
      (editTask 1 1 " new desc " (some "2025-01-01T10:00")
        [{ id := 1, userId := 1, description := "x", dueDate := none,
           completed := false },
         { id := 2, userId := 1, description := "y",
           dueDate := some (.naive 50), completed := true }]).1 :=
  C10_edit_frame 1 1 " new desc " (some "2025-01-01T10:00") _
